import Mathlib

/-!
Shallow embedding of the VoIP client session controller
(src/voip_client.cc, class webrtc_examples::VoipClient).

Modelling conventions:
* Each operation below models the body that runs on the worker thread
  (the RUN_ON_VOIP_THREAD repost only marshals the call onto that
  thread; it does not change what a body does once it executes there).
* External collaborators (the VoIP engine, socket creation, socket
  sends, the weak completion callback) are modelled by an `Oracle`
  record carrying the outcome the environment produces for each
  external call made by the operation.
* RTC_CHECK failures and null-pointer dereferences terminate the
  process, so an operation returns `Except Fault`; an `Except.error`
  outcome means the process faults and there is no successor state.
* std::vector of uint8_t buffers are byte lists (`List Nat`); a C++
  pointer-plus-length pair (packet, length) is a list `buf` together
  with `len`, and the constructor vector(packet, packet + length)
  yields `buf.take len`.
* rtc::AsyncPacketSocket::SendTo returns an int: the number of bytes
  sent on success, negative on error.  The source tests this result
  with the logical-not operator, which in C++ is true exactly when the
  integer equals 0; the embedding keeps that test as `sendToResult = 0`.
* The std::map of receive codecs is modelled as an association list in
  insertion order; std::map::insert adds a pair only when the key is
  absent, which `mapInsert` reproduces.
-/

namespace VoipClient

/-- rtc::SocketAddress as the client uses it: an IP string and a port. -/
structure SocketAddress where
  ip : String
  port : Int

/-- webrtc::SdpAudioFormat: codec name with clock rate and channel count. -/
structure SdpAudioFormat where
  name : String
  clockrateHz : Int
  numChannels : Nat

/-- webrtc::AudioCodecSpec, restricted to the field the client reads. -/
structure AudioCodecSpec where
  format : SdpAudioFormat

/-- rtc::AsyncUDPSocket: the local address it was bound to at creation
and whether it is still open (Close flips the flag). -/
structure UdpSocket where
  localAddress : SocketAddress
  isOpen : Bool

/-- The mutable state of webrtc_examples::VoipClient that the claims
are about (voip_client.h): the optional channel id, the two optional
UDP sockets (null unique_ptr = `none`), the four addresses, and the
supported-codec catalog filled in by Init. -/
structure ClientState where
  channel : Option Nat
  rtpSocket : Option UdpSocket
  rtcpSocket : Option UdpSocket
  rtpLocalAddress : SocketAddress
  rtcpLocalAddress : SocketAddress
  rtpRemoteAddress : SocketAddress
  rtcpRemoteAddress : SocketAddress
  supportedCodecs : List AudioCodecSpec

/-- A call made into the engine (the webrtc::VoipEngine surface the
client consumes). -/
inductive EngineCall where
  | createChannel (ch : Nat)
  | releaseChannel (ch : Nat)
  | startSend (ch : Nat)
  | stopSend (ch : Nat)
  | startPlayout (ch : Nat)
  | stopPlayout (ch : Nat)
  | setSendCodec (ch : Nat) (payloadType : Int) (format : SdpAudioFormat)
  | setReceiveCodecs (ch : Nat) (specs : List (Int × SdpAudioFormat))
  | receivedRTPPacket (ch : Nat) (bytes : List Nat)
  | receivedRTCPPacket (ch : Nat) (bytes : List Nat)

/-- An externally observable effect of one operation: engine calls,
socket sends, the six completion-sink callbacks, and error logs. -/
inductive Event where
  | engine (call : EngineCall)
  | socketSendTo (isRtp : Bool) (dest : SocketAddress) (bytes : List Nat)
  | onStartSessionCompleted (ok : Bool)
  | onStopSessionCompleted (ok : Bool)
  | onStartSendCompleted (ok : Bool)
  | onStopSendCompleted (ok : Bool)
  | onStartPlayoutCompleted (ok : Bool)
  | onStopPlayoutCompleted (ok : Bool)
  | logError (msg : String)

/-- Process-terminating outcomes: dereferencing a null socket
unique_ptr, or an RTC_CHECK on an engine result failing. -/
inductive Fault where
  | nullRtpSocket
  | nullRtcpSocket
  | checkFailed

/-- Environment choices for the external calls an operation makes:
the channel id CreateChannel returns, success of each engine call that
the client checks, success of the two AsyncUDPSocket::Create calls,
the int returned by SendTo, and whether the weak callback pointer is
still alive when locked. -/
structure Oracle where
  newChannelId : Nat
  rtpSocketCreateOk : Bool
  rtcpSocketCreateOk : Bool
  stopSendOk : Bool
  stopPlayoutOk : Bool
  startSendOk : Bool
  startPlayoutOk : Bool
  releaseChannelOk : Bool
  setSendCodecOk : Bool
  setReceiveCodecsOk : Bool
  receivedRtpOk : Bool
  receivedRtcpOk : Bool
  sendToResult : Int
  callbackAlive : Bool

/-- Result of running one operation body: a fault, or the next state
together with the events the operation emitted, in order. -/
abbrev Outcome := Except Fault (ClientState × List Event)

/-- The callback delivery pattern `auto callback = callback_.lock();
if (callback) ...`: the event is emitted only when the weak pointer is
still alive. -/
def notify (o : Oracle) (e : Event) : List Event :=
  if o.callbackAlive then [e] else []

/-- GetPayloadType (voip_client.cc:92): the fixed name-to-payload-type
table; -1 is the unreachable-fallback return value. -/
def GetPayloadType (codecName : String) : Int :=
  if codecName = "PCMU" then 0
  else if codecName = "PCMA" then 8
  else if codecName = "G722" then 9
  else if codecName = "opus" then 96
  else if codecName = "ISAC" then 97
  else if codecName = "ILBC" then 98
  else -1

/-- VoipClient::SetLocalAddress (voip_client.cc:212). -/
def setLocalAddress (s : ClientState) (ipAddress : String) (portNumber : Int) :
    ClientState :=
  { s with rtpLocalAddress := ⟨ipAddress, portNumber⟩,
           rtcpLocalAddress := ⟨ipAddress, portNumber + 1⟩ }

/-- VoipClient::SetRemoteAddress (voip_client.cc:220). -/
def setRemoteAddress (s : ClientState) (ipAddress : String) (portNumber : Int) :
    ClientState :=
  { s with rtpRemoteAddress := ⟨ipAddress, portNumber⟩,
           rtcpRemoteAddress := ⟨ipAddress, portNumber + 1⟩ }

/-- VoipClient::SetEncoder (voip_client.cc:175): requires a channel;
scans supported_codecs_ for the first spec whose format name matches
and calls SetSendCodec for it; silently does nothing when no name
matches.  The engine result is RTC_CHECKed. -/
def setEncoder (o : Oracle) (s : ClientState) (encoder : String) : Outcome :=
  match s.channel with
  | none => .ok (s, [.logError "Channel has not been created"])
  | some ch =>
    match s.supportedCodecs.find? (fun codec => codec.format.name == encoder) with
    | none => .ok (s, [])
    | some codec =>
      if o.setSendCodecOk then
        .ok (s, [.engine (.setSendCodec ch (GetPayloadType codec.format.name)
          codec.format)])
      else .error .checkFailed

/-- std::map::insert on the decoder-spec map: the pair is added only
when the key is not already present. -/
def mapInsert (m : List (Int × SdpAudioFormat)) (k : Int) (v : SdpAudioFormat) :
    List (Int × SdpAudioFormat) :=
  if m.any (fun p => p.1 == k) then m else m ++ [(k, v)]

/-- The loop of VoipClient::SetDecoders (voip_client.cc:200): walk the
supported-codec catalog and insert (payload type, format) for every
spec whose name occurs in the requested list. -/
def buildDecoderSpecs (decoders : List String) :
    List AudioCodecSpec → List (Int × SdpAudioFormat) → List (Int × SdpAudioFormat)
  | [], m => m
  | codec :: rest, m =>
    if decoders.contains codec.format.name then
      buildDecoderSpecs decoders rest
        (mapInsert m (GetPayloadType codec.format.name) codec.format)
    else
      buildDecoderSpecs decoders rest m

/-- VoipClient::SetDecoders (voip_client.cc:192): requires a channel;
builds the payload-type map and makes one SetReceiveCodecs call,
RTC_CHECKed. -/
def setDecoders (o : Oracle) (s : ClientState) (decoders : List String) : Outcome :=
  match s.channel with
  | none => .ok (s, [.logError "Channel has not been created"])
  | some ch =>
    if o.setReceiveCodecsOk then
      .ok (s, [.engine (.setReceiveCodecs ch
        (buildDecoderSpecs decoders s.supportedCodecs []))])
    else .error .checkFailed

/-- VoipClient::StartSession (voip_client.cc:228): unconditionally
stores a fresh channel id, then creates the rtp socket (on failure:
log, report false, return -- the channel stays set and the old rtcp
socket is untouched), then the rtcp socket (same failure handling,
with the new rtp socket kept), then reports success. -/
def startSession (o : Oracle) (s : ClientState) : Outcome :=
  let ch := o.newChannelId
  let s1 := { s with channel := some ch }
  if o.rtpSocketCreateOk then
    let s2 := { s1 with rtpSocket := some ⟨s1.rtpLocalAddress, true⟩ }
    if o.rtcpSocketCreateOk then
      let s3 := { s2 with rtcpSocket := some ⟨s2.rtcpLocalAddress, true⟩ }
      .ok (s3, .engine (.createChannel ch) ::
        notify o (.onStartSessionCompleted true))
    else
      let s3 := { s2 with rtcpSocket := none }
      .ok (s3, .engine (.createChannel ch) :: .logError "Socket creation failed" ::
        notify o (.onStartSessionCompleted false))
  else
    let s2 := { s1 with rtpSocket := none }
    .ok (s2, .engine (.createChannel ch) :: .logError "Socket creation failed" ::
      notify o (.onStartSessionCompleted false))

/-- VoipClient::StopSession (voip_client.cc:265): guarded only by the
channel handle.  StopSend is called first; StopPlayout is called only
when StopSend succeeded (the C++ disjunction short-circuits).  On the
success path both socket unique_ptrs are dereferenced and Closed (a
null pointer is a fault), ReleaseChannel is RTC_CHECKed, the channel
is cleared, and the sink is told `false`. -/
def stopSession (o : Oracle) (s : ClientState) : Outcome :=
  match s.channel with
  | none =>
    .ok (s, .logError "Channel has not been created" ::
      notify o (.onStopSessionCompleted false))
  | some ch =>
    if !o.stopSendOk then
      .ok (s, .engine (.stopSend ch) :: notify o (.onStopSessionCompleted false))
    else if !o.stopPlayoutOk then
      .ok (s, .engine (.stopSend ch) :: .engine (.stopPlayout ch) ::
        notify o (.onStopSessionCompleted false))
    else
      match s.rtpSocket with
      | none => .error .nullRtpSocket
      | some rtp =>
        match s.rtcpSocket with
        | none => .error .nullRtcpSocket
        | some rtcp =>
          if o.releaseChannelOk then
            .ok ({ s with rtpSocket := some { rtp with isOpen := false },
                          rtcpSocket := some { rtcp with isOpen := false },
                          channel := none },
              .engine (.stopSend ch) :: .engine (.stopPlayout ch) ::
                .engine (.releaseChannel ch) ::
                notify o (.onStopSessionCompleted false))
          else .error .checkFailed

/-- VoipClient::StartSend (voip_client.cc:299): requires a channel,
else reports false; otherwise reports the engine outcome verbatim. -/
def startSend (o : Oracle) (s : ClientState) : Outcome :=
  match s.channel with
  | none =>
    .ok (s, .logError "Channel has not been created" ::
      notify o (.onStartSendCompleted false))
  | some ch =>
    .ok (s, .engine (.startSend ch) :: notify o (.onStartSendCompleted o.startSendOk))

/-- VoipClient::StopSend (voip_client.cc:318). -/
def stopSend (o : Oracle) (s : ClientState) : Outcome :=
  match s.channel with
  | none =>
    .ok (s, .logError "Channel has not been created" ::
      notify o (.onStopSendCompleted false))
  | some ch =>
    .ok (s, .engine (.stopSend ch) :: notify o (.onStopSendCompleted o.stopSendOk))

/-- VoipClient::StartPlayout (voip_client.cc:337). -/
def startPlayout (o : Oracle) (s : ClientState) : Outcome :=
  match s.channel with
  | none =>
    .ok (s, .logError "Channel has not been created" ::
      notify o (.onStartPlayoutCompleted false))
  | some ch =>
    .ok (s, .engine (.startPlayout ch) ::
      notify o (.onStartPlayoutCompleted o.startPlayoutOk))

/-- VoipClient::StopPlayout (voip_client.cc:356). -/
def stopPlayout (o : Oracle) (s : ClientState) : Outcome :=
  match s.channel with
  | none =>
    .ok (s, .logError "Channel has not been created" ::
      notify o (.onStopPlayoutCompleted false))
  | some ch =>
    .ok (s, .engine (.stopPlayout ch) ::
      notify o (.onStopPlayoutCompleted o.stopPlayoutOk))

/-- VoipClient::SendRtp (voip_client.cc:384): returns true to the
engine immediately; the second component is the payload captured by
the task it posts -- vector(packet, packet + length), a copy of the
first `len` bytes of the buffer. -/
def sendRtp (buf : List Nat) (len : Nat) : Bool × List Nat :=
  (true, buf.take len)

/-- VoipClient::SendRtcp (voip_client.cc:403): same shape as SendRtp. -/
def sendRtcp (buf : List Nat) (len : Nat) : Bool × List Nat :=
  (true, buf.take len)

/-- VoipClient::OnSignalReadRTPPacket (voip_client.cc:424): the copy
carried by the inbound-forwarding task it posts. -/
def onSignalReadRTPPacket (buf : List Nat) (size : Nat) : List Nat :=
  buf.take size

/-- VoipClient::OnSignalReadRTCPPacket (voip_client.cc:448). -/
def onSignalReadRTCPPacket (buf : List Nat) (size : Nat) : List Nat :=
  buf.take size

/-- VoipClient::SendRtpPacket (voip_client.cc:375), the queued send
task: dereferences rtp_socket_ with no null check (null is a fault),
calls SendTo, and logs failure only when the int result is 0 (the
logical-not of a negative error return is false in C++). -/
def sendRtpPacket (o : Oracle) (s : ClientState) (packetCopy : List Nat) : Outcome :=
  match s.rtpSocket with
  | none => .error .nullRtpSocket
  | some _ =>
    if o.sendToResult == 0 then
      .ok (s, [.socketSendTo true s.rtpRemoteAddress packetCopy,
               .logError "Failed to send RTP packet"])
    else
      .ok (s, [.socketSendTo true s.rtpRemoteAddress packetCopy])

/-- VoipClient::SendRtcpPacket (voip_client.cc:394). -/
def sendRtcpPacket (o : Oracle) (s : ClientState) (packetCopy : List Nat) : Outcome :=
  match s.rtcpSocket with
  | none => .error .nullRtcpSocket
  | some _ =>
    if o.sendToResult == 0 then
      .ok (s, [.socketSendTo false s.rtcpRemoteAddress packetCopy,
               .logError "Failed to send RTCP packet"])
    else
      .ok (s, [.socketSendTo false s.rtcpRemoteAddress packetCopy])

/-- VoipClient::ReadRTPPacket (voip_client.cc:411), the queued inbound
task: re-checks the channel at execution time; absent channel is a
logged drop, otherwise the packet is injected and RTC_CHECKed. -/
def readRTPPacket (o : Oracle) (s : ClientState) (packetCopy : List Nat) : Outcome :=
  match s.channel with
  | none => .ok (s, [.logError "Channel has not been created"])
  | some ch =>
    if o.receivedRtpOk then
      .ok (s, [.engine (.receivedRTPPacket ch packetCopy)])
    else .error .checkFailed

/-- VoipClient::ReadRTCPPacket (voip_client.cc:435). -/
def readRTCPPacket (o : Oracle) (s : ClientState) (packetCopy : List Nat) : Outcome :=
  match s.channel with
  | none => .ok (s, [.logError "Channel has not been created"])
  | some ch =>
    if o.receivedRtcpOk then
      .ok (s, [.engine (.receivedRTCPPacket ch packetCopy)])
    else .error .checkFailed

/-- One operation executing on the worker thread, with the oracle for
the external calls it will make. -/
inductive Op where
  | opSetEncoder (o : Oracle) (encoder : String)
  | opSetDecoders (o : Oracle) (decoders : List String)
  | opSetLocalAddress (ipAddress : String) (portNumber : Int)
  | opSetRemoteAddress (ipAddress : String) (portNumber : Int)
  | opStartSession (o : Oracle)
  | opStopSession (o : Oracle)
  | opStartSend (o : Oracle)
  | opStopSend (o : Oracle)
  | opStartPlayout (o : Oracle)
  | opStopPlayout (o : Oracle)
  | opSendRtpTask (o : Oracle) (packetCopy : List Nat)
  | opSendRtcpTask (o : Oracle) (packetCopy : List Nat)
  | opReadRtpTask (o : Oracle) (packetCopy : List Nat)
  | opReadRtcpTask (o : Oracle) (packetCopy : List Nat)

/-- Dispatch of one operation body on the current state. -/
def stepOp (s : ClientState) : Op → Outcome
  | .opSetEncoder o e => setEncoder o s e
  | .opSetDecoders o d => setDecoders o s d
  | .opSetLocalAddress ip port => .ok (setLocalAddress s ip port, [])
  | .opSetRemoteAddress ip port => .ok (setRemoteAddress s ip port, [])
  | .opStartSession o => startSession o s
  | .opStopSession o => stopSession o s
  | .opStartSend o => startSend o s
  | .opStopSend o => stopSend o s
  | .opStartPlayout o => startPlayout o s
  | .opStopPlayout o => stopPlayout o s
  | .opSendRtpTask o p => sendRtpPacket o s p
  | .opSendRtcpTask o p => sendRtcpPacket o s p
  | .opReadRtpTask o p => readRTPPacket o s p
  | .opReadRtcpTask o p => readRTCPPacket o s p

/-- The state after construction and Init: no channel, null sockets,
default (empty) addresses, and the catalog obtained from the engine
factory. -/
def initState (codecs : List AudioCodecSpec) : ClientState :=
  { channel := none, rtpSocket := none, rtcpSocket := none,
    rtpLocalAddress := ⟨"", 0⟩, rtcpLocalAddress := ⟨"", 0⟩,
    rtpRemoteAddress := ⟨"", 0⟩, rtcpRemoteAddress := ⟨"", 0⟩,
    supportedCodecs := codecs }

/-- States reachable from some initial state by operations satisfying
`P`, following non-faulting steps. -/
inductive ReachableVia (P : Op → Prop) : ClientState → Prop where
  | init (codecs : List AudioCodecSpec) : ReachableVia P (initState codecs)
  | step {s s' : ClientState} {op : Op} {evs : List Event} :
      ReachableVia P s → P op → stepOp s op = .ok (s', evs) → ReachableVia P s'

/-- States reachable by arbitrary operation sequences. -/
abbrev Reachable : ClientState → Prop := ReachableVia (fun _ => True)

/-- Restriction used by the amended invariant: every StartSession in
the run has both socket creations succeed. -/
def goodCreates : Op → Prop
  | .opStartSession o => o.rtpSocketCreateOk = true ∧ o.rtcpSocketCreateOk = true
  | _ => True

/-- The socket unique_ptr is non-null and the socket has not been
Closed. -/
def sockOpen : Option UdpSocket → Prop
  | none => False
  | some sock => sock.isOpen = true

/-- Both sockets are present and open. -/
def BothOpen (s : ClientState) : Prop :=
  sockOpen s.rtpSocket ∧ sockOpen s.rtcpSocket

/-- The payload type the fixed table assigns to a codec spec. -/
def ptOf (c : AudioCodecSpec) : Int := GetPayloadType c.format.name

/-! Concrete fixtures used by the witnesses and counterexamples. -/

/-- An oracle on which every external call succeeds. -/
def oracleOk : Oracle :=
  { newChannelId := 7, rtpSocketCreateOk := true, rtcpSocketCreateOk := true,
    stopSendOk := true, stopPlayoutOk := true, startSendOk := true,
    startPlayoutOk := true, releaseChannelOk := true, setSendCodecOk := true,
    setReceiveCodecsOk := true, receivedRtpOk := true, receivedRtcpOk := true,
    sendToResult := 3, callbackAlive := true }

/-- All-success oracle whose CreateChannel returns the id 9. -/
def oracleNew9 : Oracle :=
  { oracleOk with newChannelId := 9 }

/-- All-success oracle except that rtp socket creation fails. -/
def oracleRtpFail : Oracle :=
  { oracleOk with rtpSocketCreateOk := false }

/-- All-success oracle except that SendTo returns the error value -1. -/
def oracleSendFail : Oracle :=
  { oracleOk with sendToResult := -1 }

def addrRtp : SocketAddress := ⟨"127.0.0.1", 10000⟩

def addrRtcp : SocketAddress := ⟨"127.0.0.1", 10001⟩

def remoteRtp : SocketAddress := ⟨"127.0.0.1", 20000⟩

def remoteRtcp : SocketAddress := ⟨"127.0.0.1", 20001⟩

/-- A fully active session: channel 7 and both sockets open. -/
def activeState : ClientState :=
  { channel := some 7, rtpSocket := some ⟨addrRtp, true⟩,
    rtcpSocket := some ⟨addrRtcp, true⟩,
    rtpLocalAddress := addrRtp, rtcpLocalAddress := addrRtcp,
    rtpRemoteAddress := remoteRtp, rtcpRemoteAddress := remoteRtcp,
    supportedCodecs := [] }

def opusFormat : SdpAudioFormat := ⟨"opus", 48000, 2⟩

def pcmuFormat : SdpAudioFormat := ⟨"PCMU", 8000, 1⟩

def isacFormat : SdpAudioFormat := ⟨"ISAC", 16000, 1⟩

/-- An active session whose catalog holds PCMU, opus and ISAC. -/
def codecState : ClientState :=
  { activeState with supportedCodecs := [⟨pcmuFormat⟩, ⟨opusFormat⟩, ⟨isacFormat⟩] }

/-- The state left behind by a StartSession on the fresh client whose
rtp socket creation failed: the channel handle is set, both socket
pointers are null. -/
def failedStartState : ClientState :=
  { initState [] with channel := some 7 }

/-! Helper lemmas. -/

lemma ok_state_eq {a b : ClientState} {l evs : List Event}
    (h : (Except.ok (a, l) : Outcome) = .ok (b, evs)) : b = a := by
  injection h with h1
  injection h1 with h2 h3
  exact h2.symm

lemma setEncoder_ok_state {o : Oracle} {s : ClientState} {e : String}
    {s' : ClientState} {evs : List Event}
    (h : setEncoder o s e = .ok (s', evs)) : s' = s := by
  unfold setEncoder at h
  repeat' split at h
  all_goals first
    | exact ok_state_eq h
    | exact Except.noConfusion h

lemma setDecoders_ok_state {o : Oracle} {s : ClientState} {d : List String}
    {s' : ClientState} {evs : List Event}
    (h : setDecoders o s d = .ok (s', evs)) : s' = s := by
  unfold setDecoders at h
  repeat' split at h
  all_goals first
    | exact ok_state_eq h
    | exact Except.noConfusion h

lemma startSend_ok_state {o : Oracle} {s s' : ClientState} {evs : List Event}
    (h : startSend o s = .ok (s', evs)) : s' = s := by
  unfold startSend at h
  repeat' split at h
  all_goals exact ok_state_eq h

lemma stopSend_ok_state {o : Oracle} {s s' : ClientState} {evs : List Event}
    (h : stopSend o s = .ok (s', evs)) : s' = s := by
  unfold stopSend at h
  repeat' split at h
  all_goals exact ok_state_eq h

lemma startPlayout_ok_state {o : Oracle} {s s' : ClientState} {evs : List Event}
    (h : startPlayout o s = .ok (s', evs)) : s' = s := by
  unfold startPlayout at h
  repeat' split at h
  all_goals exact ok_state_eq h

lemma stopPlayout_ok_state {o : Oracle} {s s' : ClientState} {evs : List Event}
    (h : stopPlayout o s = .ok (s', evs)) : s' = s := by
  unfold stopPlayout at h
  repeat' split at h
  all_goals exact ok_state_eq h

lemma sendRtpPacket_ok_state {o : Oracle} {s : ClientState} {p : List Nat}
    {s' : ClientState} {evs : List Event}
    (h : sendRtpPacket o s p = .ok (s', evs)) : s' = s := by
  unfold sendRtpPacket at h
  repeat' split at h
  all_goals first
    | exact ok_state_eq h
    | exact Except.noConfusion h

lemma sendRtcpPacket_ok_state {o : Oracle} {s : ClientState} {p : List Nat}
    {s' : ClientState} {evs : List Event}
    (h : sendRtcpPacket o s p = .ok (s', evs)) : s' = s := by
  unfold sendRtcpPacket at h
  repeat' split at h
  all_goals first
    | exact ok_state_eq h
    | exact Except.noConfusion h

lemma readRTPPacket_ok_state {o : Oracle} {s : ClientState} {p : List Nat}
    {s' : ClientState} {evs : List Event}
    (h : readRTPPacket o s p = .ok (s', evs)) : s' = s := by
  unfold readRTPPacket at h
  repeat' split at h
  all_goals first
    | exact ok_state_eq h
    | exact Except.noConfusion h

lemma readRTCPPacket_ok_state {o : Oracle} {s : ClientState} {p : List Nat}
    {s' : ClientState} {evs : List Event}
    (h : readRTCPPacket o s p = .ok (s', evs)) : s' = s := by
  unfold readRTCPPacket at h
  repeat' split at h
  all_goals first
    | exact ok_state_eq h
    | exact Except.noConfusion h

lemma startSession_ok_shape {o : Oracle} {s s' : ClientState} {evs : List Event}
    (h : startSession o s = .ok (s', evs)) :
    s'.channel = some o.newChannelId ∧
    ((o.rtpSocketCreateOk = true ∧ o.rtcpSocketCreateOk = true ∧
        s'.rtpSocket = some ⟨s.rtpLocalAddress, true⟩ ∧
        s'.rtcpSocket = some ⟨s.rtcpLocalAddress, true⟩) ∨
      ((o.rtpSocketCreateOk = false ∨ o.rtcpSocketCreateOk = false) ∧
        (s'.rtpSocket = none ∨ s'.rtcpSocket = none))) := by
  simp only [startSession] at h
  split at h
  next hrtp =>
    split at h
    next hrtcp =>
      have hs := ok_state_eq h
      subst hs
      exact ⟨rfl, Or.inl ⟨hrtp, hrtcp, rfl, rfl⟩⟩
    next hrtcp =>
      have hs := ok_state_eq h
      subst hs
      exact ⟨rfl, Or.inr ⟨Or.inr (by simpa using hrtcp), Or.inr rfl⟩⟩
  next hrtp =>
    have hs := ok_state_eq h
    subst hs
    exact ⟨rfl, Or.inr ⟨Or.inl (by simpa using hrtp), Or.inl rfl⟩⟩

lemma stopSession_ok_shape {o : Oracle} {s s' : ClientState} {evs : List Event}
    (h : stopSession o s = .ok (s', evs)) :
    s' = s ∨
    (s'.channel = none ∧
      ∃ rtp rtcp, s.rtpSocket = some rtp ∧ s.rtcpSocket = some rtcp ∧
        s'.rtpSocket = some { rtp with isOpen := false } ∧
        s'.rtcpSocket = some { rtcp with isOpen := false }) := by
  unfold stopSession at h
  split at h
  · exact Or.inl (ok_state_eq h)
  next ch =>
    split at h
    · exact Or.inl (ok_state_eq h)
    · split at h
      · exact Or.inl (ok_state_eq h)
      · split at h
        · exact Except.noConfusion h
        next rtp hrtp =>
          split at h
          · exact Except.noConfusion h
          next rtcp hrtcp =>
            split at h
            · have hs := ok_state_eq h
              subst hs
              exact Or.inr ⟨rfl, rtp, rtcp, hrtp, hrtcp, rfl, rfl⟩
            · exact Except.noConfusion h

lemma stepOp_preserves_open_imp {s : ClientState} {op : Op} {s' : ClientState}
    {evs : List Event}
    (h : stepOp s op = .ok (s', evs))
    (ih : BothOpen s → s.channel.isSome = true) :
    BothOpen s' → s'.channel.isSome = true := by
  cases op with
  | opSetEncoder o e =>
    have hs := setEncoder_ok_state h
    subst hs; exact ih
  | opSetDecoders o d =>
    have hs := setDecoders_ok_state h
    subst hs; exact ih
  | opSetLocalAddress ip port =>
    have hs := ok_state_eq h
    subst hs; exact ih
  | opSetRemoteAddress ip port =>
    have hs := ok_state_eq h
    subst hs; exact ih
  | opStartSession o =>
    have hch := (startSession_ok_shape h).1
    intro _
    simp [hch]
  | opStopSession o =>
    rcases stopSession_ok_shape h with hs | ⟨hch, rtp, rtcp, _, _, hrtp, hrtcp⟩
    · subst hs; exact ih
    · intro hbo
      have hop := hbo.1
      rw [hrtp] at hop
      exact absurd hop (by simp [sockOpen])
  | opStartSend o =>
    have hs := startSend_ok_state h
    subst hs; exact ih
  | opStopSend o =>
    have hs := stopSend_ok_state h
    subst hs; exact ih
  | opStartPlayout o =>
    have hs := startPlayout_ok_state h
    subst hs; exact ih
  | opStopPlayout o =>
    have hs := stopPlayout_ok_state h
    subst hs; exact ih
  | opSendRtpTask o p =>
    have hs := sendRtpPacket_ok_state h
    subst hs; exact ih
  | opSendRtcpTask o p =>
    have hs := sendRtcpPacket_ok_state h
    subst hs; exact ih
  | opReadRtpTask o p =>
    have hs := readRTPPacket_ok_state h
    subst hs; exact ih
  | opReadRtcpTask o p =>
    have hs := readRTCPPacket_ok_state h
    subst hs; exact ih

lemma stepOp_preserves_iff {s : ClientState} {op : Op} {s' : ClientState}
    {evs : List Event}
    (hgood : goodCreates op)
    (h : stepOp s op = .ok (s', evs))
    (ih : s.channel.isSome = true ↔ BothOpen s) :
    s'.channel.isSome = true ↔ BothOpen s' := by
  cases op with
  | opSetEncoder o e =>
    have hs := setEncoder_ok_state h
    subst hs; exact ih
  | opSetDecoders o d =>
    have hs := setDecoders_ok_state h
    subst hs; exact ih
  | opSetLocalAddress ip port =>
    have hs := ok_state_eq h
    subst hs; exact ih
  | opSetRemoteAddress ip port =>
    have hs := ok_state_eq h
    subst hs; exact ih
  | opStartSession o =>
    obtain ⟨hch, hrest⟩ := startSession_ok_shape h
    rcases hrest with ⟨_, _, hrtp, hrtcp⟩ | ⟨hbad, _⟩
    · constructor
      · intro _
        constructor
        · rw [hrtp]; exact rfl
        · rw [hrtcp]; exact rfl
      · intro _
        simp [hch]
    · obtain ⟨hg1, hg2⟩ := hgood
      rcases hbad with hb | hb
      · rw [hg1] at hb; exact Bool.noConfusion hb
      · rw [hg2] at hb; exact Bool.noConfusion hb
  | opStopSession o =>
    rcases stopSession_ok_shape h with hs | ⟨hch, rtp, rtcp, _, _, hrtp, hrtcp⟩
    · subst hs; exact ih
    · constructor
      · intro hcs
        rw [hch] at hcs
        exact absurd hcs (by simp)
      · intro hbo
        have hop := hbo.1
        rw [hrtp] at hop
        exact absurd hop (by simp [sockOpen])
  | opStartSend o =>
    have hs := startSend_ok_state h
    subst hs; exact ih
  | opStopSend o =>
    have hs := stopSend_ok_state h
    subst hs; exact ih
  | opStartPlayout o =>
    have hs := startPlayout_ok_state h
    subst hs; exact ih
  | opStopPlayout o =>
    have hs := stopPlayout_ok_state h
    subst hs; exact ih
  | opSendRtpTask o p =>
    have hs := sendRtpPacket_ok_state h
    subst hs; exact ih
  | opSendRtcpTask o p =>
    have hs := sendRtcpPacket_ok_state h
    subst hs; exact ih
  | opReadRtpTask o p =>
    have hs := readRTPPacket_ok_state h
    subst hs; exact ih
  | opReadRtcpTask o p =>
    have hs := readRTCPPacket_ok_state h
    subst hs; exact ih

lemma buildDecoderSpecs_eq (decoders : List String)
    (supported : List AudioCodecSpec) :
    ∀ m : List (Int × SdpAudioFormat),
      (supported.map ptOf).Nodup →
      (∀ c ∈ supported, decoders.contains c.format.name = true →
        (m.any fun q => q.1 == ptOf c) = false) →
      buildDecoderSpecs decoders supported m =
        m ++ (supported.filter fun c => decoders.contains c.format.name).map
          (fun c => (ptOf c, c.format)) := by
  induction supported with
  | nil =>
    intro m _ _
    simp [buildDecoderSpecs]
  | cons codec rest ih =>
    intro m hnd hdisj
    have hnd0 : (∀ x ∈ rest, ptOf x ≠ ptOf codec) ∧ (rest.map ptOf).Nodup := by
      simpa using hnd
    by_cases hmem : decoders.contains codec.format.name
    · have hkey : (m.any fun q => q.1 == ptOf codec) = false :=
        hdisj codec (List.mem_cons_self _ _) hmem
      have hkey2 : (m.any fun p => p.1 == GetPayloadType codec.format.name) = false :=
        hkey
      have hstep : buildDecoderSpecs decoders (codec :: rest) m =
          buildDecoderSpecs decoders rest
            (m ++ [(GetPayloadType codec.format.name, codec.format)]) := by
        simp only [buildDecoderSpecs]
        rw [if_pos hmem]
        simp only [mapInsert]
        rw [if_neg (by simp [hkey2])]
      have hdisj2 : ∀ c ∈ rest, decoders.contains c.format.name = true →
          ((m ++ [(GetPayloadType codec.format.name, codec.format)]).any
            fun q => q.1 == ptOf c) = false := by
        intro c hc hcont
        have hne : GetPayloadType codec.format.name ≠ ptOf c := fun heq =>
          hnd0.1 c hc ((show ptOf codec = GetPayloadType codec.format.name from rfl)
            ▸ heq).symm
        simp [List.any_append, hdisj c (List.mem_cons_of_mem _ hc) hcont, hne]
      rw [hstep, ih _ hnd0.2 hdisj2]
      have hmem2 : codec.format.name ∈ decoders := by simpa using hmem
      simp [List.filter_cons, hmem2, ptOf, List.append_assoc]
    · have h0 : decoders.contains codec.format.name = false := by
        simpa using hmem
      have hstep : buildDecoderSpecs decoders (codec :: rest) m =
          buildDecoderSpecs decoders rest m := by
        simp only [buildDecoderSpecs]
        rw [if_neg (by simpa using hmem)]
      rw [hstep,
        ih _ hnd0.2 (fun c hc hcont => hdisj c (List.mem_cons_of_mem _ hc) hcont)]
      have hmem2 : codec.format.name ∉ decoders := by simpa using hmem
      simp [List.filter_cons, hmem2]

lemma reachable_open_imp {s : ClientState} (hr : Reachable s) :
    BothOpen s → s.channel.isSome = true := by
  induction hr with
  | init codecs => exact fun hbo => False.elim hbo.1
  | step hr hp heq ih => exact stepOp_preserves_open_imp heq ih

lemma goodReachable_iff {s : ClientState} (hr : ReachableVia goodCreates s) :
    s.channel.isSome = true ↔ BothOpen s := by
  induction hr with
  | init codecs =>
    constructor
    · intro hc; exact absurd hc (by simp [initState])
    · intro hbo; exact False.elim hbo.1
  | step hr hp heq ih => exact stepOp_preserves_iff hp heq ih

/-! Claim theorems. -/

/-- C1, code behavior at the failing input: at a fully active state,
with StopSend, StopPlayout and ReleaseChannel all succeeding and the
callback alive, StopSession closes both sockets, releases the channel
and clears the handle, yet reports `false` through
OnStopSessionCompleted -- not the `true` of the corrected contract. -/
theorem stopSession_success_path_reports_false :
    ∃ s' evs, stopSession oracleOk activeState = .ok (s', evs) ∧
      s'.channel = none ∧
      s'.rtpSocket = some ⟨addrRtp, false⟩ ∧
      s'.rtcpSocket = some ⟨addrRtcp, false⟩ ∧
      Event.engine (.releaseChannel 7) ∈ evs ∧
      Event.onStopSessionCompleted false ∈ evs ∧
      Event.onStopSessionCompleted true ∉ evs :=
  ⟨_, _, rfl, rfl, rfl, rfl,
    by simp [notify, oracleOk], by simp [notify, oracleOk],
    by simp [notify, oracleOk]⟩

/-- C2 is false as stated: StartSession invoked on an active session
(channel 7 present) does not report failure -- it reports `true` and
replaces the channel handle (the engine returned the fresh id 9). -/
theorem startSession_while_active_cex :
    ∃ s' evs, startSession oracleNew9 activeState = .ok (s', evs) ∧
      s'.channel ≠ activeState.channel ∧
      Event.onStartSessionCompleted false ∉ evs ∧
      Event.onStartSessionCompleted true ∈ evs :=
  ⟨_, _, rfl, by simp [oracleNew9, oracleOk, activeState],
    by simp [notify, oracleNew9, oracleOk],
    by simp [notify, oracleNew9, oracleOk]⟩

/-- C2, amended: invoking StartSession while a channel is present
performs no idle-check: it stores a freshly created channel over the
existing handle without releasing it, re-creates both sockets bound to
the current local addresses, and (when both socket creations succeed
and the callback is alive) reports `true` via OnStartSessionCompleted. -/
theorem startSession_while_active_overwrites
    (s : ClientState) (o : Oracle) (ch : Nat)
    (hch : s.channel = some ch)
    (h1 : o.rtpSocketCreateOk = true) (h2 : o.rtcpSocketCreateOk = true)
    (h3 : o.callbackAlive = true) :
    ∃ s' evs, startSession o s = .ok (s', evs) ∧
      s'.channel = some o.newChannelId ∧
      s'.rtpSocket = some ⟨s.rtpLocalAddress, true⟩ ∧
      s'.rtcpSocket = some ⟨s.rtcpLocalAddress, true⟩ ∧
      Event.onStartSessionCompleted true ∈ evs ∧
      (∀ c, Event.engine (.releaseChannel c) ∉ evs) := by
  have hstart : startSession o s = .ok
      ({ s with channel := some o.newChannelId,
                rtpSocket := some ⟨s.rtpLocalAddress, true⟩,
                rtcpSocket := some ⟨s.rtcpLocalAddress, true⟩ },
        [Event.engine (.createChannel o.newChannelId),
         Event.onStartSessionCompleted true]) := by
    simp [startSession, h1, h2, notify, h3]
  exact ⟨_, _, hstart, rfl, rfl, rfl, by simp, fun c => by simp⟩

/-- C2 witness: the amended behavior evaluated at the active fixture. -/
theorem startSession_while_active_overwrites_w :
    ∃ s' evs, startSession oracleNew9 activeState = .ok (s', evs) ∧
      s'.channel = some oracleNew9.newChannelId ∧
      s'.rtpSocket = some ⟨activeState.rtpLocalAddress, true⟩ ∧
      s'.rtcpSocket = some ⟨activeState.rtcpLocalAddress, true⟩ ∧
      Event.onStartSessionCompleted true ∈ evs ∧
      (∀ c, Event.engine (.releaseChannel c) ∉ evs) :=
  startSession_while_active_overwrites activeState oracleNew9 7 rfl rfl rfl rfl

/-- C4: when either socket creation fails during StartSession (and the
callback is alive), the sink receives OnStartSessionCompleted(false)
and no success report, the session does not become active (the socket
pair is not both open), and the freshly created channel remains stored
and is never released -- the known leak. -/
theorem startSession_socket_failure_leaks_channel
    (s : ClientState) (o : Oracle)
    (hfail : o.rtpSocketCreateOk = false ∨ o.rtcpSocketCreateOk = false)
    (halive : o.callbackAlive = true) :
    ∃ s' evs, startSession o s = .ok (s', evs) ∧
      Event.onStartSessionCompleted false ∈ evs ∧
      Event.onStartSessionCompleted true ∉ evs ∧
      s'.channel = some o.newChannelId ∧
      (∀ c, Event.engine (.releaseChannel c) ∉ evs) ∧
      ¬ BothOpen s' := by
  by_cases h1 : o.rtpSocketCreateOk
  · have h2 : o.rtcpSocketCreateOk = false := by
      rcases hfail with h | h
      · exact absurd h1 (by simp [h])
      · exact h
    have hstart : startSession o s = .ok
        ({ s with channel := some o.newChannelId,
                  rtpSocket := some ⟨s.rtpLocalAddress, true⟩,
                  rtcpSocket := none },
          [Event.engine (.createChannel o.newChannelId),
           Event.logError "Socket creation failed",
           Event.onStartSessionCompleted false]) := by
      simp [startSession, h1, h2, notify, halive]
    refine ⟨_, _, hstart, by simp, by simp, rfl, fun c => by simp, ?_⟩
    intro hbo
    exact hbo.2
  · have h1f : o.rtpSocketCreateOk = false := by simpa using h1
    have hstart : startSession o s = .ok
        ({ s with channel := some o.newChannelId, rtpSocket := none },
          [Event.engine (.createChannel o.newChannelId),
           Event.logError "Socket creation failed",
           Event.onStartSessionCompleted false]) := by
      simp [startSession, h1f, notify, halive]
    refine ⟨_, _, hstart, by simp, by simp, rfl, fun c => by simp, ?_⟩
    intro hbo
    exact hbo.1

/-- C4 witness: rtp socket creation failing on the initial state. -/
theorem startSession_socket_failure_leaks_channel_w :
    ∃ s' evs, startSession oracleRtpFail (initState []) = .ok (s', evs) ∧
      Event.onStartSessionCompleted false ∈ evs ∧
      Event.onStartSessionCompleted true ∉ evs ∧
      s'.channel = some oracleRtpFail.newChannelId ∧
      (∀ c, Event.engine (.releaseChannel c) ∉ evs) ∧
      ¬ BothOpen s' :=
  startSession_socket_failure_leaks_channel (initState []) oracleRtpFail
    (Or.inl rfl) rfl

/-- C5 is false as stated: a queued outbound send task that executes
when no session is active (the rtp socket unique_ptr is null, as after
construction or after a failed StartSession) is not a safe logged drop
-- the task dereferences the null rtp socket and the process faults. -/
theorem send_task_null_socket_faults :
    sendRtpPacket oracleOk (initState []) [1, 2] = .error Fault.nullRtpSocket := rfl

/-- C5, amended: the inbound forwarding tasks re-check channel
liveness at execution time and drop the packet with only a log entry
and no engine call when the channel is absent; the outbound send tasks
never call the engine and execute safely whenever the socket pointer
is non-null (open or just closed), but they perform no liveness
re-check of their own and dereference null when the socket is absent. -/
theorem task_execution_liveness :
    (∀ o s p, s.channel = none →
      readRTPPacket o s p = .ok (s, [Event.logError "Channel has not been created"]) ∧
      readRTCPPacket o s p = .ok (s, [Event.logError "Channel has not been created"])) ∧
    (∀ o s p sock, s.rtpSocket = some sock →
      ∃ evs, sendRtpPacket o s p = .ok (s, evs) ∧ ∀ c, Event.engine c ∉ evs) ∧
    (∀ o s p sock, s.rtcpSocket = some sock →
      ∃ evs, sendRtcpPacket o s p = .ok (s, evs) ∧ ∀ c, Event.engine c ∉ evs) ∧
    (∀ o s p, s.rtpSocket = none →
      sendRtpPacket o s p = .error Fault.nullRtpSocket) ∧
    (∀ o s p, s.rtcpSocket = none →
      sendRtcpPacket o s p = .error Fault.nullRtcpSocket) := by
  refine ⟨?_, ?_, ?_, ?_, ?_⟩
  · intro o s p hch
    constructor <;> simp [readRTPPacket, readRTCPPacket, hch]
  · intro o s p sock hsock
    by_cases hz : o.sendToResult == 0
    · exact ⟨[Event.socketSendTo true s.rtpRemoteAddress p,
          Event.logError "Failed to send RTP packet"],
        by simp [sendRtpPacket, hsock, hz], fun c => by simp⟩
    · exact ⟨[Event.socketSendTo true s.rtpRemoteAddress p],
        by simp [sendRtpPacket, hsock, hz], fun c => by simp⟩
  · intro o s p sock hsock
    by_cases hz : o.sendToResult == 0
    · exact ⟨[Event.socketSendTo false s.rtcpRemoteAddress p,
          Event.logError "Failed to send RTCP packet"],
        by simp [sendRtcpPacket, hsock, hz], fun c => by simp⟩
    · exact ⟨[Event.socketSendTo false s.rtcpRemoteAddress p],
        by simp [sendRtcpPacket, hsock, hz], fun c => by simp⟩
  · intro o s p hsock
    simp [sendRtpPacket, hsock]
  · intro o s p hsock
    simp [sendRtcpPacket, hsock]

/-- C5 witness: the amended behavior at concrete inputs. -/
theorem task_execution_liveness_w :
    readRTPPacket oracleOk (initState []) [3] =
      .ok (initState [], [Event.logError "Channel has not been created"]) ∧
    (∃ evs, sendRtpPacket oracleOk activeState [3] = .ok (activeState, evs) ∧
      ∀ c, Event.engine c ∉ evs) ∧
    sendRtcpPacket oracleOk (initState []) [3] = .error Fault.nullRtcpSocket :=
  ⟨(task_execution_liveness.1 oracleOk (initState []) [3] rfl).1,
   task_execution_liveness.2.1 oracleOk activeState [3] ⟨addrRtp, true⟩ rfl,
   task_execution_liveness.2.2.2.2 oracleOk (initState []) [3] rfl⟩

/-- C6, code behavior at the failing input: SendRtp and SendRtcp
return `true` to the engine and the posted task carries exactly the
first `length` bytes of the buffer, including length zero; but a
queued send task whose SendTo returns the error value -1 emits no
failure log, because the source applies logical-not to the int result,
which detects only a zero return. -/
theorem sendRtp_accepts_copies_failure_unlogged :
    sendRtp [1, 2, 3, 4] 3 = (true, [1, 2, 3]) ∧
    sendRtp [] 0 = (true, []) ∧
    sendRtcp [9, 8] 2 = (true, [9, 8]) ∧
    sendRtcp [] 0 = (true, []) ∧
    sendRtpPacket oracleSendFail activeState [1, 2, 3] =
      .ok (activeState, [Event.socketSendTo true remoteRtp [1, 2, 3]]) ∧
    (∀ msg, Event.logError msg ∉
      [Event.socketSendTo true remoteRtp ([1, 2, 3] : List Nat)]) := by
  refine ⟨rfl, rfl, rfl, rfl, rfl, ?_⟩
  intro msg
  simp

/-- C7: SetLocalAddress stores (ip, port) as the local rtp endpoint
and (ip, port+1) as the local rtcp endpoint, SetRemoteAddress does the
same for the remote side, and neither touches any other field of the
session state. -/
theorem set_addresses_pure_update :
    ∀ s ip port,
      (setLocalAddress s ip port).rtpLocalAddress = ⟨ip, port⟩ ∧
      (setLocalAddress s ip port).rtcpLocalAddress = ⟨ip, port + 1⟩ ∧
      (setLocalAddress s ip port).rtpRemoteAddress = s.rtpRemoteAddress ∧
      (setLocalAddress s ip port).rtcpRemoteAddress = s.rtcpRemoteAddress ∧
      (setLocalAddress s ip port).channel = s.channel ∧
      (setLocalAddress s ip port).rtpSocket = s.rtpSocket ∧
      (setLocalAddress s ip port).rtcpSocket = s.rtcpSocket ∧
      (setLocalAddress s ip port).supportedCodecs = s.supportedCodecs ∧
      (setRemoteAddress s ip port).rtpRemoteAddress = ⟨ip, port⟩ ∧
      (setRemoteAddress s ip port).rtcpRemoteAddress = ⟨ip, port + 1⟩ ∧
      (setRemoteAddress s ip port).rtpLocalAddress = s.rtpLocalAddress ∧
      (setRemoteAddress s ip port).rtcpLocalAddress = s.rtcpLocalAddress ∧
      (setRemoteAddress s ip port).channel = s.channel ∧
      (setRemoteAddress s ip port).rtpSocket = s.rtpSocket ∧
      (setRemoteAddress s ip port).rtcpSocket = s.rtcpSocket ∧
      (setRemoteAddress s ip port).supportedCodecs = s.supportedCodecs :=
  fun s ip port =>
    ⟨rfl, rfl, rfl, rfl, rfl, rfl, rfl, rfl,
     rfl, rfl, rfl, rfl, rfl, rfl, rfl, rfl⟩

/-- C3 is false as stated: a StartSession whose rtp socket creation
fails yields a reachable state whose channel handle is present while
the rtp socket pointer is null, so channel presence is not equivalent
to socket-pair presence in every reachable state. -/
theorem channel_socket_presence_cex :
    ¬ (∀ s, Reachable s →
      (s.channel.isSome = true ↔
        (s.rtpSocket.isSome = true ∧ s.rtcpSocket.isSome = true))) := by
  intro hall
  have hr : Reachable failedStartState :=
    @ReachableVia.step (fun _ => True) (initState []) failedStartState
      (Op.opStartSession oracleRtpFail)
      [Event.engine (.createChannel 7), Event.logError "Socket creation failed",
        Event.onStartSessionCompleted false]
      (ReachableVia.init []) trivial rfl
  have h2 := (hall _ hr).mp (by decide)
  exact absurd h2.1 (by decide)

/-- C3, amended: with socket presence read as the pointer being
non-null and the socket not yet closed, (i) in every state reachable
by runs in which every socket creation succeeds, the channel handle is
present exactly when both sockets are present and open, and (ii) in
every reachable state without restriction, both sockets open implies
the channel is present.  (The unrestricted equivalence fails: a failed
socket creation leaves the channel with a null socket, and a completed
StopSession leaves closed-but-non-null sockets with no channel.) -/
theorem channel_socket_invariant :
    (∀ s, ReachableVia goodCreates s → (s.channel.isSome = true ↔ BothOpen s)) ∧
    (∀ s, Reachable s → BothOpen s → s.channel.isSome = true) :=
  ⟨fun _ hr => goodReachable_iff hr, fun _ hr => reachable_open_imp hr⟩

/-- C3 witness: the invariant applied to the active fixture, reached
by SetLocalAddress, SetRemoteAddress and a successful StartSession. -/
theorem channel_socket_invariant_w :
    (activeState.channel.isSome = true ↔ BothOpen activeState) ∧
    (BothOpen activeState → activeState.channel.isSome = true) := by
  have g1 := @ReachableVia.step goodCreates (initState []) _
    (Op.opSetLocalAddress "127.0.0.1" 10000) _ (ReachableVia.init []) trivial rfl
  have g2 := @ReachableVia.step goodCreates _ _
    (Op.opSetRemoteAddress "127.0.0.1" 20000) _ g1 trivial rfl
  have g3 := @ReachableVia.step goodCreates _ activeState
    (Op.opStartSession oracleOk) _ g2 ⟨rfl, rfl⟩ rfl
  have a1 := @ReachableVia.step (fun _ => True) (initState []) _
    (Op.opSetLocalAddress "127.0.0.1" 10000) _ (ReachableVia.init []) trivial rfl
  have a2 := @ReachableVia.step (fun _ => True) _ _
    (Op.opSetRemoteAddress "127.0.0.1" 20000) _ a1 trivial rfl
  have a3 := @ReachableVia.step (fun _ => True) _ activeState
    (Op.opStartSession oracleOk) _ a2 trivial rfl
  exact ⟨channel_socket_invariant.1 activeState g3,
         channel_socket_invariant.2 activeState a3⟩

/-- C8: with a channel present, SetEncoder with a name absent from the
supported catalog makes no engine call and changes no state; with a
name present it makes exactly one SetSendCodec call, using the fixed
table payload type for the name and the matched codec spec format.
The table maps PCMU to 0, PCMA to 8, G722 to 9, opus to 96, ISAC to
97 and ILBC to 98. -/
theorem setEncoder_spec
    (o : Oracle) (s : ClientState) (ch : Nat) (encoder : String)
    (hch : s.channel = some ch) (hok : o.setSendCodecOk = true) :
    ((∀ c ∈ s.supportedCodecs, c.format.name ≠ encoder) →
      setEncoder o s encoder = .ok (s, [])) ∧
    ((∃ c ∈ s.supportedCodecs, c.format.name = encoder) →
      ∃ chosen, chosen ∈ s.supportedCodecs ∧ chosen.format.name = encoder ∧
        setEncoder o s encoder =
          .ok (s, [Event.engine (.setSendCodec ch (GetPayloadType encoder)
            chosen.format)])) ∧
    GetPayloadType "PCMU" = 0 ∧ GetPayloadType "PCMA" = 8 ∧
    GetPayloadType "G722" = 9 ∧ GetPayloadType "opus" = 96 ∧
    GetPayloadType "ISAC" = 97 ∧ GetPayloadType "ILBC" = 98 := by
  refine ⟨?_, ?_, rfl, rfl, rfl, rfl, rfl, rfl⟩
  · intro habs
    have hfind : s.supportedCodecs.find?
        (fun codec => codec.format.name == encoder) = none := by
      apply List.find?_eq_none.mpr
      intro c hc
      simpa using habs c hc
    simp [setEncoder, hch, hfind]
  · intro hex
    have hsome : (s.supportedCodecs.find?
        (fun codec => codec.format.name == encoder)).isSome = true := by
      rw [List.find?_isSome]
      obtain ⟨c, hc, hname⟩ := hex
      exact ⟨c, hc, by simpa using hname⟩
    obtain ⟨chosen, hfind⟩ := Option.isSome_iff_exists.mp hsome
    have hmem : chosen ∈ s.supportedCodecs := List.mem_of_find?_eq_some hfind
    have hname : chosen.format.name = encoder := by
      simpa using List.find?_some hfind
    refine ⟨chosen, hmem, hname, ?_⟩
    simp [setEncoder, hch, hfind, hok, hname]

/-- C8 witness: on the concrete catalog, the unsupported name G729 is
ignored and the supported name opus yields the single engine call. -/
theorem setEncoder_spec_w :
    setEncoder oracleOk codecState "G729" = .ok (codecState, []) ∧
    ∃ chosen, chosen ∈ codecState.supportedCodecs ∧
      chosen.format.name = "opus" ∧
      setEncoder oracleOk codecState "opus" =
        .ok (codecState, [Event.engine (.setSendCodec 7 (GetPayloadType "opus")
          chosen.format)]) :=
  ⟨(setEncoder_spec oracleOk codecState 7 "G729" rfl rfl).1 (by decide),
   (setEncoder_spec oracleOk codecState 7 "opus" rfl rfl).2.1 (by decide)⟩

/-- C9: with a channel present (and a catalog whose payload types are
pairwise distinct, as the built-in table yields), SetDecoders makes
exactly one SetReceiveCodecs engine call, and the map it passes
contains exactly the (payload type, format) pairs of those supported
codecs whose name occurs in the requested list; unknown names
contribute nothing. -/
theorem setDecoders_spec
    (o : Oracle) (s : ClientState) (ch : Nat) (decoders : List String)
    (hch : s.channel = some ch) (hok : o.setReceiveCodecsOk = true)
    (hnd : (s.supportedCodecs.map ptOf).Nodup) :
    ∃ m, setDecoders o s decoders = .ok (s, [Event.engine (.setReceiveCodecs ch m)]) ∧
      ∀ p f, ((p, f) ∈ m ↔ ∃ c ∈ s.supportedCodecs,
        decoders.contains c.format.name = true ∧ ptOf c = p ∧ c.format = f) := by
  have hbuild := buildDecoderSpecs_eq decoders s.supportedCodecs []
    hnd (fun c _ _ => rfl)
  refine ⟨(s.supportedCodecs.filter
      (fun c => decoders.contains c.format.name)).map
      (fun c => (ptOf c, c.format)), ?_, ?_⟩
  · rw [List.nil_append] at hbuild
    simp [setDecoders, hch, hok, hbuild]
  · intro p f
    simp only [List.mem_map, List.mem_filter, Prod.mk.injEq]
    constructor
    · rintro ⟨c, ⟨hcmem, hcont⟩, hp, hf⟩
      exact ⟨c, hcmem, hcont, hp, hf⟩
    · rintro ⟨c, hcmem, hcont, hp, hf⟩
      exact ⟨c, ⟨hcmem, hcont⟩, hp, hf⟩

/-- C9 witness: decoder selection on the concrete catalog with one
unknown name in the request. -/
theorem setDecoders_spec_w :
    ∃ m, setDecoders oracleOk codecState ["opus", "PCMU", "XYZ"] =
        .ok (codecState, [Event.engine (.setReceiveCodecs 7 m)]) ∧
      ∀ p f, ((p, f) ∈ m ↔ ∃ c ∈ codecState.supportedCodecs,
        (["opus", "PCMU", "XYZ"] : List String).contains c.format.name = true ∧
        ptOf c = p ∧ c.format = f) :=
  setDecoders_spec oracleOk codecState 7 ["opus", "PCMU", "XYZ"] rfl rfl (by decide)

/-- C10: after a StartSession that failed at rtp socket creation, the
channel handle is set while the rtp socket is null; StopSession, whose
only guard checks the channel handle and whose engine StopSend and
StopPlayout calls succeed, then reaches the null rtp socket
dereference and the process faults. -/
theorem stopSession_after_failed_start_faults :
    ∃ s1 evs, startSession oracleRtpFail (initState []) = .ok (s1, evs) ∧
      s1.channel = some 7 ∧ s1.rtpSocket = none ∧
      stopSession oracleOk s1 = .error Fault.nullRtpSocket :=
  ⟨_, _, rfl, rfl, rfl, rfl⟩

end VoipClient
